import Mathlib

/-!
# Verification of the HomeInspector mold-detection service

Shallow embedding of `RoboflowService` (the repository's detection core):
the severity classifier, the description/recommendation templates, the
prediction-to-detection mapping of `detectMold`, the synthetic demo
fallback `generateMockDetections`, and the service lifecycle
(`constructor`/`initialize`/`isAvailable`).

JavaScript numbers are modelled as `ℚ` (all constants in the source are
exact decimals); `Math.sqrt` is modelled as an explicit function
parameter `msqrt` because exact square roots leave `ℚ`; `Math.random`
is modelled as an explicit stream `rand : ℕ → ℚ` of draws consumed in
source order; `Date.now()` is a parameter `now`.
-/

namespace HomeInspector

/-- The four severity tiers, ordered low < medium < high < critical. -/
inductive Severity where
  | low
  | medium
  | high
  | critical
deriving DecidableEq

/-- Numeric rank realising the order low < medium < high < critical. -/
def Severity.rank : Severity → ℕ
  | .low => 0
  | .medium => 1
  | .high => 2
  | .critical => 3

/-- JavaScript `v || d` for an optional numeric field: a missing field or a
falsy (zero) value falls back to the default `d`. -/
def jsOr (v : Option ℚ) (d : ℚ) : ℚ :=
  match v with
  | none => d
  | some q => if q = 0 then d else q

/-- JavaScript `v || d` for an optional string field: a missing field or a
falsy (empty) string falls back to the default `d`. -/
def jsOrStr (v : Option String) (d : String) : String :=
  match v with
  | none => d
  | some s => if s = "" then d else s

/-- JavaScript `Math.round`: round half toward positive infinity. -/
def jsRound (q : ℚ) : ℤ := ⌊q + 1/2⌋

/-- The dimensions of the analysed image element (`imageElement.width`,
`imageElement.height`). -/
structure Image where
  width : ℚ
  height : ℚ
deriving DecidableEq

/-- One prediction of the external model, shape
`{class, confidence, x, y, width, height}`; every field may be absent. -/
structure Prediction where
  confidence : Option ℚ
  x : Option ℚ
  y : Option ℚ
  width : Option ℚ
  height : Option ℚ
  cls : Option String
deriving DecidableEq

/-- The normalized `location` box of a detection. -/
structure Location where
  x : ℚ
  y : ℚ
  width : ℚ
  height : ℚ
deriving DecidableEq

/-- The `rawPrediction` payload carried by a detection: either the original
model prediction, or the demo tag `{demo: true, confidence, area}` of a
synthetic finding. -/
inductive RawPrediction where
  | ofPrediction (p : Prediction)
  | demoTag (confidence area : ℚ)
deriving DecidableEq

/-- Reading the `demo` field of a `rawPrediction` payload: `true` exactly on
the synthetic tag (a real model prediction has no `demo` field, which is
falsy). -/
def RawPrediction.demo : RawPrediction → Bool
  | .ofPrediction _ => false
  | .demoTag _ _ => true

/-- The `RoboflowDetection` record. -/
structure Detection where
  id : String
  type : String
  severity : Severity
  confidence : ℚ
  location : Location
  description : String
  recommendations : List String
  cls : String
  rawPrediction : RawPrediction
deriving DecidableEq

/-- `RoboflowService.determineSeverity`: first match wins, all comparisons
strict. -/
def determineSeverity (confidence area : ℚ) : Severity :=
  if confidence > 0.8 ∧ area > 0.1 then .critical
  else if confidence > 0.7 ∨ area > 0.05 then .high
  else if confidence > 0.6 then .medium
  else .low

/-- JavaScript `String.prototype.toLowerCase()`, character-wise. -/
def jsToLower (s : String) : String := ⟨s.data.map Char.toLower⟩

/-- `RoboflowService.generateDescription`: template lookup keyed by the
lowercased class name, with a generic fallback. -/
def generateDescription (className : String) (confidence : ℚ) : String :=
  let confidencePct := jsRound (confidence * 100)
  if jsToLower className = "mold" then
    "Mold growth detected with " ++ toString confidencePct ++ "% confidence"
  else if jsToLower className = "mouldy" then
    "Moldy surface identified with " ++ toString confidencePct ++ "% confidence"
  else if jsToLower className = "fungal" then
    "Fungal growth observed with " ++ toString confidencePct ++ "% confidence"
  else
    "Mold-like substance detected with " ++ toString confidencePct ++ "% confidence"

/-- `RoboflowService.getMoldRecommendations`: three base recommendations
followed by the severity-specific list. -/
def getMoldRecommendations (severity : Severity) : List String :=
  let base := ["Identify and eliminate moisture source",
               "Improve ventilation in affected area",
               "Monitor for spread to adjacent areas"]
  let specific : List String :=
    match severity with
    | .critical => ["IMMEDIATE professional mold remediation required",
                    "Evacuate area until professional assessment",
                    "Contact certified mold remediation specialist",
                    "Consider temporary relocation if extensive"]
    | .high => ["Professional mold remediation recommended",
                "Wear protective equipment when in area",
                "Schedule professional air quality testing",
                "Document extent for insurance purposes"]
    | .medium => ["Professional assessment recommended",
                  "Clean with appropriate mold removal products",
                  "Increase air circulation and dehumidification",
                  "Monitor closely for expansion"]
    | .low => ["Clean affected area with mold removal solution",
               "Ensure proper ventilation",
               "Regular monitoring recommended",
               "Address any moisture issues promptly"]
  base ++ specific

/-- The body of the `predictions.map` callback in `detectMold`: one
detection assembled from one model prediction. -/
def mkDetection (img : Image) (now : ℕ) (index : ℕ) (prediction : Prediction) : Detection :=
  let confidence := jsOr prediction.confidence 0
  let width := jsOr prediction.width 50
  let height := jsOr prediction.height 50
  let x := jsOr prediction.x 0
  let y := jsOr prediction.y 0
  let area := (width * height) / (img.width * img.height)
  { id := "mold_" ++ toString now ++ "_" ++ toString index
    type := "mold"
    severity := determineSeverity confidence area
    confidence := confidence
    location :=
      { x := max 0 (min 1 ((x - width / 2) / img.width))
        y := max 0 (min 1 ((y - height / 2) / img.height))
        width := min 1 (width / img.width)
        height := min 1 (height / img.height) }
    description := generateDescription (jsOrStr prediction.cls "mold") confidence
    recommendations := getMoldRecommendations (determineSeverity confidence area)
    cls := jsOrStr prediction.cls "mold"
    rawPrediction := .ofPrediction prediction }

/-- JavaScript `Array.prototype.map` with the element index, as used in
`predictions.map((prediction, index) => ...)`. -/
def mapWithIndex (f : ℕ → Prediction → Detection) : ℕ → List Prediction → List Detection
  | _, [] => []
  | i, p :: ps => f i p :: mapWithIndex f (i + 1) ps

/-- The body of the demo-mode loop in `generateMockDetections`, iteration
`i`; the six `Math.random()` calls of the iteration are, in source order,
`rand (6*i+1)` (confidence), `rand (6*i+2)` (area), `rand (6*i+3)` (x),
`rand (6*i+4)` (y), `rand (6*i+5)` (width), `rand (6*i+6)` (height). -/
def mockDetection (msqrt : ℚ → ℚ) (rand : ℕ → ℚ) (now : ℕ) (i : ℕ) : Detection :=
  let confidence := 0.6 + rand (6 * i + 1) * 0.3
  let area := 0.01 + rand (6 * i + 2) * 0.05
  { id := "demo_mold_" ++ toString now ++ "_" ++ toString i
    type := "mold"
    severity := determineSeverity confidence area
    confidence := confidence
    location :=
      { x := rand (6 * i + 3) * 0.7 + 0.1
        y := rand (6 * i + 4) * 0.7 + 0.1
        width := msqrt area + rand (6 * i + 5) * 0.1
        height := msqrt area + rand (6 * i + 6) * 0.1 }
    description := "Demo: Mold growth detected with "
      ++ toString (jsRound (confidence * 100)) ++ "% confidence"
    recommendations := getMoldRecommendations (determineSeverity confidence area)
    cls := "mold"
    rawPrediction := .demoTag confidence area }

/-- `RoboflowService.generateMockDetections`: `Math.floor(Math.random()*3)`
synthetic findings (the count draws `rand 0`). The image element is unused
by the source body. -/
def generateMockDetections (msqrt : ℚ → ℚ) (rand : ℕ → ℚ) (now : ℕ) (_img : Image) :
    List Detection :=
  let numDetections := (⌊rand 0 * 3⌋).toNat
  (List.range numDetections).map (mockDetection msqrt rand now)

/-- The mutable fields of `RoboflowService` that the embedded methods read:
`isInitialized`, `apiKey`, and whether `model` is non-null. -/
structure ServiceState where
  isInitialized : Bool
  apiKey : Option String
  modelLoaded : Bool
deriving DecidableEq

/-- The constructor `new RoboflowService(apiKey?)`:
`this.apiKey = apiKey || null`. -/
def construct (apiKey : Option String) : ServiceState :=
  { isInitialized := false
    apiKey :=
      match apiKey with
      | none => none
      | some s => if s = "" then none else some s
    modelLoaded := false }

/-- `RoboflowService.initialize(apiKey)`. `loadOutcome` is the outcome of
the dynamic import and model load; the result pairs the mutated state with
the returned value or thrown error. -/
def initService (st : ServiceState) (apiKey : String) (loadOutcome : Except String Unit) :
    ServiceState × Except String Bool :=
  let st1 := { st with apiKey := some apiKey }
  if apiKey = "demo" then
    ({ st1 with isInitialized := true }, .ok true)
  else
    match loadOutcome with
    | .ok _ => ({ st1 with modelLoaded := true, isInitialized := true }, .ok true)
    | .error e =>
      ({ st1 with isInitialized := false, modelLoaded := false },
       .error ("Roboflow initialization failed: " ++ e))

/-- `RoboflowService.isAvailable()`. -/
def isAvailable (st : ServiceState) : Bool :=
  st.isInitialized && (st.apiKey == some "demo" || st.modelLoaded)

/-- `RoboflowService.detectMold`. `detectOutcome` is the outcome of
`this.model.detect(imageElement)`: a thrown error, a null/non-array
response (`none`), or a prediction list. -/
def detectMold (st : ServiceState) (img : Image) (now : ℕ) (msqrt : ℚ → ℚ) (rand : ℕ → ℚ)
    (detectOutcome : Except String (Option (List Prediction))) :
    Except String (List Detection) :=
  if st.apiKey = some "demo" then
    .ok (generateMockDetections msqrt rand now img)
  else if isAvailable st = false ∨ st.modelLoaded = false then
    .error "Roboflow model not initialized"
  else
    match detectOutcome with
    | .error e => .error ("Mold detection failed: " ++ e)
    | .ok none => .ok []
    | .ok (some predictions) =>
      if predictions.length = 0 then .ok []
      else .ok (mapWithIndex (fun index p => mkDetection img now index p) 0 predictions)

/-- `leadsOf p s` decides whether the character list `p` starts the
character list `s` (the marker test "the string begins with this tag"). -/
def leadsOf : List Char → List Char → Bool
  | [], _ => true
  | _ :: _, [] => false
  | a :: as, b :: bs => a == b && leadsOf as bs

/-- The severity rules as worded by the spec (§4.3), for comparison with
the source's `determineSeverity`: priority order, first match wins,
`confidence > 0.80 AND relativeArea > 0.10` critical, else
`confidence > 0.70 OR relativeArea > 0.05` high, else `confidence > 0.60`
medium, else low. -/
def severitySpec (confidence relativeArea : ℚ) : Severity :=
  if confidence > 0.8 ∧ relativeArea > 0.1 then .critical
  else if confidence > 0.7 ∨ relativeArea > 0.05 then .high
  else if confidence > 0.6 then .medium
  else .low

/-- C1: the severity classifier is exactly the spec's priority-ordered rule
table, with strict comparisons; in particular the boundary input
`confidence = 0.80`, `relativeArea = 0.10` is classified high, not
critical. -/
theorem c1_severity_rules :
    (∀ confidence area : ℚ, determineSeverity confidence area = severitySpec confidence area) ∧
    determineSeverity 0.80 0.10 = Severity.high ∧
    Severity.high ≠ Severity.critical :=
  ⟨fun _ _ => rfl, by norm_num [determineSeverity], by decide⟩

/-- A finding ranks critical exactly when both strict thresholds hold. -/
theorem determineSeverity_eq_critical_iff (c a : ℚ) :
    determineSeverity c a = Severity.critical ↔ (c > 0.8 ∧ a > 0.1) := by
  unfold determineSeverity
  split_ifs with h1 h2 h3 <;> simp_all

/-- A finding ranks at least high exactly when one of the high thresholds
holds. -/
theorem two_le_rank_iff (c a : ℚ) :
    2 ≤ (determineSeverity c a).rank ↔ (c > 0.7 ∨ a > 0.05) := by
  unfold determineSeverity
  split_ifs with h1 h2 h3
  · simp only [Severity.rank]
    exact iff_of_true (by norm_num) (Or.inl (by linarith [h1.1]))
  · simp only [Severity.rank]
    exact iff_of_true (le_refl 2) h2
  · simp only [Severity.rank]
    exact iff_of_false (by norm_num) h2
  · simp only [Severity.rank]
    exact iff_of_false (by norm_num) h2

/-- A finding ranks at least medium exactly when the medium threshold or
the area-based high threshold holds. -/
theorem one_le_rank_iff (c a : ℚ) :
    1 ≤ (determineSeverity c a).rank ↔ (c > 0.6 ∨ a > 0.05) := by
  unfold determineSeverity
  split_ifs with h1 h2 h3
  · exact iff_of_true (by norm_num [Severity.rank]) (Or.inl (by linarith [h1.1]))
  · refine iff_of_true (by norm_num [Severity.rank]) ?_
    rcases h2 with h | h
    · exact Or.inl (by linarith)
    · exact Or.inr h
  · exact iff_of_true (by norm_num [Severity.rank]) (Or.inl h3)
  · refine iff_of_false (by norm_num [Severity.rank]) ?_
    rintro (h | h)
    · exact h3 h
    · exact h2 (Or.inr h)

/-- C4: the severity classifier is monotonically non-decreasing in both
confidence and relative area, in the order low < medium < high < critical
realised by `Severity.rank`. -/
theorem c4_severity_monotone (c a c' a' : ℚ) (hc : c ≤ c') (ha : a ≤ a') :
    (determineSeverity c a).rank ≤ (determineSeverity c' a').rank := by
  cases h : determineSeverity c a with
  | low => exact Nat.zero_le _
  | medium =>
    have hm : c > 0.6 ∨ a > 0.05 := by
      have := (one_le_rank_iff c a).mp (by rw [h]; decide)
      exact this
    have hm' : 1 ≤ (determineSeverity c' a').rank := by
      refine (one_le_rank_iff c' a').mpr ?_
      rcases hm with hme | hme
      · exact Or.inl (by linarith)
      · exact Or.inr (by linarith)
    exact hm'
  | high =>
    have hh : c > 0.7 ∨ a > 0.05 := by
      have := (two_le_rank_iff c a).mp (by rw [h]; decide)
      exact this
    have hh' : 2 ≤ (determineSeverity c' a').rank := by
      refine (two_le_rank_iff c' a').mpr ?_
      rcases hh with hhe | hhe
      · exact Or.inl (by linarith)
      · exact Or.inr (by linarith)
    exact hh'
  | critical =>
    have hcrit := (determineSeverity_eq_critical_iff c a).mp h
    have hcrit' : determineSeverity c' a' = Severity.critical :=
      (determineSeverity_eq_critical_iff c' a').mpr ⟨by linarith [hcrit.1], by linarith [hcrit.2]⟩
    rw [hcrit']

/-- Witness for C4 at `(0.5, 0.01) ≤ (0.9, 0.2)`. -/
theorem c4_severity_monotone_witness :
    ((0.5:ℚ) ≤ 0.9 ∧ (0.01:ℚ) ≤ 0.2) ∧
    (determineSeverity 0.5 0.01).rank ≤ (determineSeverity 0.9 0.2).rank :=
  ⟨⟨by norm_num, by norm_num⟩,
   c4_severity_monotone 0.5 0.01 0.9 0.2 (by norm_num) (by norm_num)⟩

/-- C8: the description generator depends on the class name only through
its lowercasing (the lookup is case-insensitive), and every class whose
lowercasing is outside {mold, mouldy, fungal} falls back to the generic
template with the confidence rounded to a whole percent. -/
theorem c8_description_lookup (cls cls' : String) (confidence : ℚ) :
    (jsToLower cls = jsToLower cls' →
      generateDescription cls confidence = generateDescription cls' confidence) ∧
    (jsToLower cls ≠ "mold" → jsToLower cls ≠ "mouldy" → jsToLower cls ≠ "fungal" →
      generateDescription cls confidence =
        "Mold-like substance detected with "
          ++ toString (jsRound (confidence * 100)) ++ "% confidence") := by
  constructor
  · intro h
    simp only [generateDescription]
    rw [h]
  · intro h1 h2 h3
    simp only [generateDescription]
    rw [if_neg h1, if_neg h2, if_neg h3]

/-- Witness for C8: `"MOLD"` and `"Mold"` lowercase alike and get the same
description; `"crack"` is outside the keyed set and gets the generic
template. -/
theorem c8_description_lookup_witness :
    (jsToLower "MOLD" = jsToLower "Mold" ∧
      generateDescription "MOLD" 0.42 = generateDescription "Mold" 0.42) ∧
    (jsToLower "crack" ≠ "mold" ∧ jsToLower "crack" ≠ "mouldy" ∧ jsToLower "crack" ≠ "fungal" ∧
      generateDescription "crack" 0.42 =
        "Mold-like substance detected with "
          ++ toString (jsRound ((0.42:ℚ) * 100)) ++ "% confidence") :=
  ⟨⟨by decide, (c8_description_lookup "MOLD" "Mold" 0.42).1 (by decide)⟩,
   ⟨by decide, by decide, by decide,
    (c8_description_lookup "crack" "crack" 0.42).2 (by decide) (by decide) (by decide)⟩⟩

/-- `mapWithIndex` preserves the length of the prediction list. -/
theorem mapWithIndex_length (f : ℕ → Prediction → Detection) :
    ∀ (i : ℕ) (l : List Prediction), (mapWithIndex f i l).length = l.length := by
  intro i l
  induction l generalizing i with
  | nil => rfl
  | cons p ps ih => simp [mapWithIndex, ih]

/-- Every element of `mapWithIndex f i l` is `f j p` for some source
prediction `p ∈ l`. -/
theorem exists_source_of_mem_mapWithIndex {f : ℕ → Prediction → Detection} :
    ∀ {i : ℕ} {l : List Prediction} {d : Detection}, d ∈ mapWithIndex f i l →
      ∃ j p, p ∈ l ∧ d = f j p := by
  intro i l
  induction l generalizing i with
  | nil => intro d h; cases h
  | cons p ps ih =>
    intro d h
    rcases List.mem_cons.mp h with h | h
    · exact ⟨i, p, List.mem_cons_self _ _, h⟩
    · obtain ⟨j, q, hq, hd⟩ := ih h
      exact ⟨j, q, List.mem_cons_of_mem _ hq, hd⟩

/-- Every source prediction is mapped into `mapWithIndex f i l` at some
index. -/
theorem mem_mapWithIndex_of_mem {f : ℕ → Prediction → Detection} :
    ∀ {l : List Prediction} {p : Prediction}, p ∈ l →
      ∀ i, ∃ j, f j p ∈ mapWithIndex f i l := by
  intro l
  induction l with
  | nil => intro p hp; cases hp
  | cons q qs ih =>
    intro p hp i
    rcases List.mem_cons.mp hp with h | h
    · subst h
      exact ⟨i, List.mem_cons_self _ _⟩
    · obtain ⟨j, hj⟩ := ih h (i + 1)
      exact ⟨j, List.mem_cons_of_mem _ hj⟩

/-- On the real-model path (non-demo key, initialized, model loaded) with a
prediction list response, `detectMold` returns exactly the indexed map of
`mkDetection` over the predictions. -/
theorem detectMold_real (st : ServiceState) (img : Image) (now : ℕ) (msqrt : ℚ → ℚ)
    (rand : ℕ → ℚ) (preds : List Prediction) (hdemo : st.apiKey ≠ some "demo")
    (hinit : st.isInitialized = true) (hmodel : st.modelLoaded = true) :
    detectMold st img now msqrt rand (.ok (some preds)) =
      .ok (mapWithIndex (fun index p => mkDetection img now index p) 0 preds) := by
  unfold detectMold
  rw [if_neg hdemo, if_neg (by simp [isAvailable, hinit, hmodel])]
  cases preds with
  | nil => rfl
  | cons q qs => rfl

/-- C9: with the `'demo'` API key the service never touches the model:
`initialize('demo')` returns `true` and makes `isAvailable()` true while
leaving the model field unchanged (hence null if never loaded), and
`detectMold` takes the mock path — returning the synthetic detections, not
the `'Roboflow model not initialized'` error — both after
`initialize('demo')` and after mere construction with `'demo'`. -/
theorem c9_demo_mode (st : ServiceState) (load : Except String Unit) (img : Image) (now : ℕ)
    (msqrt : ℚ → ℚ) (rand : ℕ → ℚ) (outcome : Except String (Option (List Prediction))) :
    (initService st "demo" load).2 = .ok true ∧
    (initService st "demo" load).1.modelLoaded = st.modelLoaded ∧
    isAvailable (initService st "demo" load).1 = true ∧
    detectMold (initService st "demo" load).1 img now msqrt rand outcome
      = .ok (generateMockDetections msqrt rand now img) ∧
    detectMold (construct (some "demo")) img now msqrt rand outcome
      = .ok (generateMockDetections msqrt rand now img) :=
  ⟨rfl, rfl, rfl, rfl, rfl⟩

/-- C6 counterexample: on the real-model path a thrown service error is
wrapped and rethrown by `detectMold`, not converted into an empty
detection list. -/
theorem c6_counterexample :
    detectMold ⟨true, some "key", true⟩ ⟨100, 100⟩ 0 (fun _ => 0) (fun _ => 0)
        (.error "network timeout")
      = .error ("Mold detection failed: network timeout") ∧
    Except.error ("Mold detection failed: network timeout")
      ≠ (Except.ok ([] : List Detection)) :=
  ⟨rfl, by simp⟩

/-- C6 (amended): a null/non-array prediction response is treated as empty
findings (`detectMold` returns `[]`), but a thrown service error is not
absorbed: `detectMold` wraps it as `'Mold detection failed: …'` and
propagates it to the caller. -/
theorem c6_amended (st : ServiceState) (img : Image) (now : ℕ) (msqrt : ℚ → ℚ)
    (rand : ℕ → ℚ) (hdemo : st.apiKey ≠ some "demo") (hinit : st.isInitialized = true)
    (hmodel : st.modelLoaded = true) :
    detectMold st img now msqrt rand (.ok none) = .ok [] ∧
    ∀ e, detectMold st img now msqrt rand (.error e)
      = .error ("Mold detection failed: " ++ e) := by
  constructor
  · unfold detectMold
    rw [if_neg hdemo, if_neg (by simp [isAvailable, hinit, hmodel])]
  · intro e
    unfold detectMold
    rw [if_neg hdemo, if_neg (by simp [isAvailable, hinit, hmodel])]

/-- Witness for C6 (amended) on a concrete initialized service. -/
theorem c6_amended_witness :
    ((some "key" : Option String) ≠ some "demo") ∧
    (detectMold ⟨true, some "key", true⟩ ⟨100, 100⟩ 0 (fun _ => 0) (fun _ => 0) (.ok none)
        = .ok [] ∧
     ∀ e, detectMold ⟨true, some "key", true⟩ ⟨100, 100⟩ 0 (fun _ => 0) (fun _ => 0) (.error e)
        = .error ("Mold detection failed: " ++ e)) :=
  ⟨by decide,
   c6_amended ⟨true, some "key", true⟩ ⟨100, 100⟩ 0 (fun _ => 0) (fun _ => 0)
     (by decide) rfl rfl⟩

/-- C3 counterexample: a prediction with confidence `0.49` under the
default configuration is not dropped — it reaches the returned detection
list with its confidence intact. -/
theorem c3_counterexample :
    detectMold ⟨true, some "key", true⟩ ⟨100, 100⟩ 7 (fun _ => 0) (fun _ => 0)
        (.ok (some [⟨some 0.49, some 50, some 50, some 20, some 20, some "mold"⟩]))
      = .ok [mkDetection ⟨100, 100⟩ 7 0
          ⟨some 0.49, some 50, some 50, some 20, some 20, some "mold"⟩] ∧
    (mkDetection ⟨100, 100⟩ 7 0
        ⟨some 0.49, some 50, some 50, some 20, some 20, some "mold"⟩).confidence = 0.49 := by
  constructor
  · rfl
  · show jsOr (some 0.49) 0 = 0.49
    norm_num [jsOr]

/-- C3 (amended): `detectMold` applies no confidence gating whatsoever:
on the real-model path every returned prediction becomes exactly one
detection carrying its (defaulted) confidence, whatever its value. -/
theorem c3_amended (st : ServiceState) (img : Image) (now : ℕ) (msqrt : ℚ → ℚ)
    (rand : ℕ → ℚ) (preds : List Prediction) (hdemo : st.apiKey ≠ some "demo")
    (hinit : st.isInitialized = true) (hmodel : st.modelLoaded = true) :
    ∃ ds, detectMold st img now msqrt rand (.ok (some preds)) = .ok ds ∧
      ds.length = preds.length ∧
      ∀ p ∈ preds, ∃ d ∈ ds, d.confidence = jsOr p.confidence 0 := by
  refine ⟨mapWithIndex (fun index p => mkDetection img now index p) 0 preds,
    detectMold_real st img now msqrt rand preds hdemo hinit hmodel,
    mapWithIndex_length _ 0 preds, ?_⟩
  intro p hp
  obtain ⟨j, hj⟩ := mem_mapWithIndex_of_mem hp 0
  exact ⟨mkDetection img now j p, hj, rfl⟩

/-- Witness for C3 (amended): a concrete service and a single prediction of
confidence `0.49`. -/
theorem c3_amended_witness :
    ((some "key" : Option String) ≠ some "demo") ∧
    (∃ ds, detectMold ⟨true, some "key", true⟩ ⟨100, 100⟩ 7 (fun _ => 0) (fun _ => 0)
        (.ok (some [⟨some 0.49, some 50, some 50, some 20, some 20, some "mold"⟩])) = .ok ds ∧
      ds.length = [(⟨some 0.49, some 50, some 50, some 20, some 20, some "mold"⟩ : Prediction)].length ∧
      ∀ p ∈ [(⟨some 0.49, some 50, some 50, some 20, some 20, some "mold"⟩ : Prediction)],
        ∃ d ∈ ds, d.confidence = jsOr p.confidence 0) :=
  ⟨by decide,
   c3_amended ⟨true, some "key", true⟩ ⟨100, 100⟩ 7 (fun _ => 0) (fun _ => 0)
     [⟨some 0.49, some 50, some 50, some 20, some 20, some "mold"⟩] (by decide) rfl rfl⟩

/-- C5: for every image and every choice of in-range random draws, the
synthetic fallback produces at most two findings (and at least zero, being
a list), each with confidence in [0.6, 0.9] and a drawn relative area in
[0.01, 0.06] recorded in its raw payload. -/
theorem c5_mock_bounds (msqrt : ℚ → ℚ) (rand : ℕ → ℚ) (now : ℕ) (img : Image)
    (hrand : ∀ i, 0 ≤ rand i ∧ rand i < 1) :
    (generateMockDetections msqrt rand now img).length ≤ 2 ∧
    ∀ d ∈ generateMockDetections msqrt rand now img,
      (0.6 ≤ d.confidence ∧ d.confidence ≤ 0.9) ∧
      ∃ a, d.rawPrediction = RawPrediction.demoTag d.confidence a ∧ 0.01 ≤ a ∧ a ≤ 0.06 := by
  constructor
  · have h0 := hrand 0
    have hfl : ⌊rand 0 * 3⌋ < 3 := by
      apply Int.floor_lt.mpr
      push_cast
      linarith [h0.2]
    simp only [generateMockDetections, List.length_map, List.length_range]
    omega
  · intro d hd
    simp only [generateMockDetections, List.mem_map, List.mem_range] at hd
    obtain ⟨i, _, hdi⟩ := hd
    subst hdi
    have hc := hrand (6 * i + 1)
    have ha := hrand (6 * i + 2)
    have hc3 : rand (6 * i + 1) * 0.3 ≤ 0.3 := by nlinarith [hc.2]
    have hc3' : 0 ≤ rand (6 * i + 1) * 0.3 := by nlinarith [hc.1]
    have ha5 : rand (6 * i + 2) * 0.05 ≤ 0.05 := by nlinarith [ha.2]
    have ha5' : 0 ≤ rand (6 * i + 2) * 0.05 := by nlinarith [ha.1]
    refine ⟨⟨?_, ?_⟩, 0.01 + rand (6 * i + 2) * 0.05, rfl, ?_, ?_⟩
    · show (0.6 : ℚ) ≤ 0.6 + rand (6 * i + 1) * 0.3
      linarith
    · show (0.6 : ℚ) + rand (6 * i + 1) * 0.3 ≤ 0.9
      linarith
    · linarith
    · linarith

/-- Witness for C5: every draw fixed to 0 keeps all draws inside [0, 1). -/
theorem c5_mock_bounds_witness :
    (∀ i : ℕ, 0 ≤ (fun _ : ℕ => (0 : ℚ)) i ∧ (fun _ : ℕ => (0 : ℚ)) i < 1) ∧
    ((generateMockDetections (fun _ => 0) (fun _ => 0) 0 ⟨100, 100⟩).length ≤ 2 ∧
     ∀ d ∈ generateMockDetections (fun _ => 0) (fun _ => 0) 0 ⟨100, 100⟩,
       ((0.6 : ℚ) ≤ d.confidence ∧ d.confidence ≤ 0.9) ∧
       ∃ a, d.rawPrediction = RawPrediction.demoTag d.confidence a ∧
         (0.01 : ℚ) ≤ a ∧ a ≤ 0.06) :=
  ⟨fun _ => ⟨le_refl 0, by norm_num⟩,
   c5_mock_bounds (fun _ => 0) (fun _ => 0) 0 ⟨100, 100⟩ (fun _ => ⟨le_refl 0, by norm_num⟩)⟩

/-- C10: the prediction-to-detection mapping is total over malformed
predictions: `detectMold` yields exactly one detection per prediction
without failing, and at a 100×100 image an all-missing prediction — and
equally an all-falsy one — gets confidence 0, class `"mold"`, and the
location computed from the defaults x = 0, y = 0, width = height = 50. -/
theorem c10_total_defaults (st : ServiceState) (img : Image) (now : ℕ) (msqrt : ℚ → ℚ)
    (rand : ℕ → ℚ) (preds : List Prediction) (hdemo : st.apiKey ≠ some "demo")
    (hinit : st.isInitialized = true) (hmodel : st.modelLoaded = true) :
    (∃ ds, detectMold st img now msqrt rand (.ok (some preds)) = .ok ds ∧
      ds.length = preds.length) ∧
    (mkDetection ⟨100, 100⟩ now 0 ⟨none, none, none, none, none, none⟩).confidence = 0 ∧
    (mkDetection ⟨100, 100⟩ now 0 ⟨none, none, none, none, none, none⟩).cls = "mold" ∧
    (mkDetection ⟨100, 100⟩ now 0 ⟨none, none, none, none, none, none⟩).location.x = 0 ∧
    (mkDetection ⟨100, 100⟩ now 0 ⟨none, none, none, none, none, none⟩).location.y = 0 ∧
    (mkDetection ⟨100, 100⟩ now 0 ⟨none, none, none, none, none, none⟩).location.width = 1/2 ∧
    (mkDetection ⟨100, 100⟩ now 0 ⟨none, none, none, none, none, none⟩).location.height = 1/2 ∧
    (mkDetection ⟨100, 100⟩ now 0 ⟨some 0, some 0, some 0, some 0, some 0, some ""⟩).confidence
      = 0 ∧
    (mkDetection ⟨100, 100⟩ now 0 ⟨some 0, some 0, some 0, some 0, some 0, some ""⟩).cls
      = "mold" ∧
    (mkDetection ⟨100, 100⟩ now 0 ⟨some 0, some 0, some 0, some 0, some 0, some ""⟩).location
      = (mkDetection ⟨100, 100⟩ now 0 ⟨none, none, none, none, none, none⟩).location := by
  refine ⟨⟨mapWithIndex (fun index p => mkDetection img now index p) 0 preds,
      detectMold_real st img now msqrt rand preds hdemo hinit hmodel,
      mapWithIndex_length _ 0 preds⟩, rfl, rfl, ?_, ?_, ?_, ?_, ?_, rfl, ?_⟩
  · show max 0 (min 1 ((jsOr none 0 - jsOr none 50 / 2) / 100)) = 0
    norm_num [jsOr, min_def, max_def]
  · show max 0 (min 1 ((jsOr none 0 - jsOr none 50 / 2) / 100)) = 0
    norm_num [jsOr, min_def, max_def]
  · show min 1 (jsOr none 50 / 100) = 1/2
    norm_num [jsOr, min_def]
  · show min 1 (jsOr none 50 / 100) = 1/2
    norm_num [jsOr, min_def]
  · show jsOr (some 0) 0 = 0
    norm_num [jsOr]
  · show Location.mk (max 0 (min 1 ((jsOr (some 0) 0 - jsOr (some 0) 50 / 2) / 100)))
        (max 0 (min 1 ((jsOr (some 0) 0 - jsOr (some 0) 50 / 2) / 100)))
        (min 1 (jsOr (some 0) 50 / 100)) (min 1 (jsOr (some 0) 50 / 100))
      = Location.mk (max 0 (min 1 ((jsOr none 0 - jsOr none 50 / 2) / 100)))
        (max 0 (min 1 ((jsOr none 0 - jsOr none 50 / 2) / 100)))
        (min 1 (jsOr none 50 / 100)) (min 1 (jsOr none 50 / 100))
    norm_num [jsOr]

/-- Witness for C10 on a concrete initialized service and a two-element
prediction list. -/
theorem c10_total_defaults_witness :
    ((some "key" : Option String) ≠ some "demo") ∧
    ((∃ ds, detectMold ⟨true, some "key", true⟩ ⟨100, 100⟩ 3 (fun _ => 0) (fun _ => 0)
        (.ok (some [⟨none, none, none, none, none, none⟩,
                    ⟨some 0, some 0, some 0, some 0, some 0, some ""⟩])) = .ok ds ∧
      ds.length = 2) ∧
    (mkDetection ⟨100, 100⟩ 3 0 ⟨none, none, none, none, none, none⟩).confidence = 0 ∧
    (mkDetection ⟨100, 100⟩ 3 0 ⟨none, none, none, none, none, none⟩).cls = "mold" ∧
    (mkDetection ⟨100, 100⟩ 3 0 ⟨none, none, none, none, none, none⟩).location.x = 0 ∧
    (mkDetection ⟨100, 100⟩ 3 0 ⟨none, none, none, none, none, none⟩).location.y = 0 ∧
    (mkDetection ⟨100, 100⟩ 3 0 ⟨none, none, none, none, none, none⟩).location.width = 1/2 ∧
    (mkDetection ⟨100, 100⟩ 3 0 ⟨none, none, none, none, none, none⟩).location.height = 1/2 ∧
    (mkDetection ⟨100, 100⟩ 3 0 ⟨some 0, some 0, some 0, some 0, some 0, some ""⟩).confidence
      = 0 ∧
    (mkDetection ⟨100, 100⟩ 3 0 ⟨some 0, some 0, some 0, some 0, some 0, some ""⟩).cls
      = "mold" ∧
    (mkDetection ⟨100, 100⟩ 3 0 ⟨some 0, some 0, some 0, some 0, some 0, some ""⟩).location
      = (mkDetection ⟨100, 100⟩ 3 0 ⟨none, none, none, none, none, none⟩).location) :=
  ⟨by decide,
   c10_total_defaults ⟨true, some "key", true⟩ ⟨100, 100⟩ 3 (fun _ => 0) (fun _ => 0)
     [⟨none, none, none, none, none, none⟩, ⟨some 0, some 0, some 0, some 0, some 0, some ""⟩]
     (by decide) rfl rfl⟩

/-- A defaulted numeric field is nonnegative when its default and its
present value are. -/
theorem jsOr_nonneg (v : Option ℚ) (d : ℚ) (hd : 0 ≤ d) (hv : ∀ q, v = some q → 0 ≤ q) :
    0 ≤ jsOr v d := by
  cases v with
  | none => exact hd
  | some q =>
    by_cases h : q = 0
    · simpa [jsOr, h] using hd
    · simpa [jsOr, h] using hv q rfl

/-- Each coordinate of a real-path detection's location lies in [0, 1],
given positive image dimensions and nonnegative box dimensions. -/
theorem mkDetection_loc_bounds (img : Image) (now index : ℕ) (p : Prediction)
    (hW : 0 < img.width) (hH : 0 < img.height)
    (hw : ∀ v, p.width = some v → 0 ≤ v) (hh : ∀ v, p.height = some v → 0 ≤ v) :
    (0 ≤ (mkDetection img now index p).location.x ∧ (mkDetection img now index p).location.x ≤ 1) ∧
    (0 ≤ (mkDetection img now index p).location.y ∧ (mkDetection img now index p).location.y ≤ 1) ∧
    (0 ≤ (mkDetection img now index p).location.width ∧
      (mkDetection img now index p).location.width ≤ 1) ∧
    (0 ≤ (mkDetection img now index p).location.height ∧
      (mkDetection img now index p).location.height ≤ 1) := by
  have hwn : 0 ≤ jsOr p.width 50 := jsOr_nonneg _ _ (by norm_num) hw
  have hhn : 0 ≤ jsOr p.height 50 := jsOr_nonneg _ _ (by norm_num) hh
  refine ⟨⟨le_max_left 0 _, ?_⟩, ⟨le_max_left 0 _, ?_⟩, ⟨?_, min_le_left 1 _⟩,
    ⟨?_, min_le_left 1 _⟩⟩
  · exact max_le (by norm_num) (min_le_left 1 _)
  · exact max_le (by norm_num) (min_le_left 1 _)
  · exact le_min (by norm_num) (div_nonneg hwn hW.le)
  · exact le_min (by norm_num) (div_nonneg hhn hH.le)

/-- Each coordinate of a synthetic-path detection's location lies in [0, 1],
given in-range random draws and a square-root model bounded on the drawn
area interval. -/
theorem mockDetection_loc_bounds (msqrt : ℚ → ℚ) (rand : ℕ → ℚ) (now i : ℕ)
    (hrand : ∀ j, 0 ≤ rand j ∧ rand j < 1)
    (hsqrt : ∀ q, 1/100 ≤ q → q ≤ 6/100 → 0 ≤ msqrt q ∧ msqrt q ≤ 1/4) :
    (0 ≤ (mockDetection msqrt rand now i).location.x ∧
      (mockDetection msqrt rand now i).location.x ≤ 1) ∧
    (0 ≤ (mockDetection msqrt rand now i).location.y ∧
      (mockDetection msqrt rand now i).location.y ≤ 1) ∧
    (0 ≤ (mockDetection msqrt rand now i).location.width ∧
      (mockDetection msqrt rand now i).location.width ≤ 1) ∧
    (0 ≤ (mockDetection msqrt rand now i).location.height ∧
      (mockDetection msqrt rand now i).location.height ≤ 1) := by
  have hx := hrand (6 * i + 3)
  have hy := hrand (6 * i + 4)
  have hw := hrand (6 * i + 5)
  have hh := hrand (6 * i + 6)
  have ha := hrand (6 * i + 2)
  have harea : 1/100 ≤ 0.01 + rand (6 * i + 2) * 0.05 ∧
      0.01 + rand (6 * i + 2) * 0.05 ≤ 6/100 := by
    constructor <;> nlinarith [ha.1, ha.2]
  have hs := hsqrt _ harea.1 harea.2
  refine ⟨⟨?_, ?_⟩, ⟨?_, ?_⟩, ⟨?_, ?_⟩, ⟨?_, ?_⟩⟩
  · show (0:ℚ) ≤ rand (6 * i + 3) * 0.7 + 0.1
    nlinarith [hx.1]
  · show rand (6 * i + 3) * 0.7 + 0.1 ≤ 1
    nlinarith [hx.2]
  · show (0:ℚ) ≤ rand (6 * i + 4) * 0.7 + 0.1
    nlinarith [hy.1]
  · show rand (6 * i + 4) * 0.7 + 0.1 ≤ 1
    nlinarith [hy.2]
  · show (0:ℚ) ≤ msqrt (0.01 + rand (6 * i + 2) * 0.05) + rand (6 * i + 5) * 0.1
    nlinarith [hs.1, hw.1]
  · show msqrt (0.01 + rand (6 * i + 2) * 0.05) + rand (6 * i + 5) * 0.1 ≤ 1
    nlinarith [hs.2, hw.2]
  · show (0:ℚ) ≤ msqrt (0.01 + rand (6 * i + 2) * 0.05) + rand (6 * i + 6) * 0.1
    nlinarith [hs.1, hh.1]
  · show msqrt (0.01 + rand (6 * i + 2) * 0.05) + rand (6 * i + 6) * 0.1 ≤ 1
    nlinarith [hs.2, hh.2]

/-- C2 counterexample: on a 100×100 image, the prediction
`{confidence: 0.9, x: 100, y: 50, width: 40, height: 40}` is emitted by
`detectMold` with a location whose `x + width` is `1.2 > 1`: the claimed
`x + width ≤ 1` invariant fails. -/
theorem c2_counterexample :
    detectMold ⟨true, some "key", true⟩ ⟨100, 100⟩ 7 (fun _ => 0) (fun _ => 0)
        (.ok (some [⟨some 0.9, some 100, some 50, some 40, some 40, some "mold"⟩]))
      = .ok [mkDetection ⟨100, 100⟩ 7 0
          ⟨some 0.9, some 100, some 50, some 40, some 40, some "mold"⟩] ∧
    1 < (mkDetection ⟨100, 100⟩ 7 0
          ⟨some 0.9, some 100, some 50, some 40, some 40, some "mold"⟩).location.x
        + (mkDetection ⟨100, 100⟩ 7 0
          ⟨some 0.9, some 100, some 50, some 40, some 40, some "mold"⟩).location.width := by
  constructor
  · rfl
  · show 1 < max 0 (min 1 ((jsOr (some 100) 0 - jsOr (some 40) 50 / 2) / 100))
        + min 1 (jsOr (some 40) 50 / 100)
    norm_num [jsOr, min_def, max_def]

/-- C2 (amended): every detection emitted by `detectMold` — real path or
synthetic fallback — has each of its location coordinates `x`, `y`,
`width`, `height` individually in [0, 1] (given positive image dimensions,
nonnegative prediction box dimensions, in-range random draws and a bounded
square-root model); the sums `x + width` and `y + height` are not clamped
and may exceed 1. -/
theorem c2_amended (st : ServiceState) (img : Image) (now : ℕ) (msqrt : ℚ → ℚ)
    (rand : ℕ → ℚ) (outcome : Except String (Option (List Prediction)))
    (ds : List Detection)
    (hW : 0 < img.width) (hH : 0 < img.height)
    (hrand : ∀ i, 0 ≤ rand i ∧ rand i < 1)
    (hsqrt : ∀ q, 1/100 ≤ q → q ≤ 6/100 → 0 ≤ msqrt q ∧ msqrt q ≤ 1/4)
    (hpred : ∀ preds, outcome = Except.ok (some preds) → ∀ p ∈ preds,
        (∀ v, p.width = some v → 0 ≤ v) ∧ (∀ v, p.height = some v → 0 ≤ v))
    (hds : detectMold st img now msqrt rand outcome = .ok ds) :
    ∀ d ∈ ds,
      (0 ≤ d.location.x ∧ d.location.x ≤ 1) ∧
      (0 ≤ d.location.y ∧ d.location.y ≤ 1) ∧
      (0 ≤ d.location.width ∧ d.location.width ≤ 1) ∧
      (0 ≤ d.location.height ∧ d.location.height ≤ 1) := by
  by_cases hdemo : st.apiKey = some "demo"
  · have hds' : generateMockDetections msqrt rand now img = ds := by
      have : detectMold st img now msqrt rand outcome
          = .ok (generateMockDetections msqrt rand now img) := by
        unfold detectMold
        rw [if_pos hdemo]
      rw [this] at hds
      exact Except.ok.inj hds
    intro d hd
    rw [← hds'] at hd
    simp only [generateMockDetections, List.mem_map, List.mem_range] at hd
    obtain ⟨i, _, hdi⟩ := hd
    subst hdi
    exact mockDetection_loc_bounds msqrt rand now i hrand hsqrt
  · by_cases havail : isAvailable st = false ∨ st.modelLoaded = false
    · exfalso
      unfold detectMold at hds
      rw [if_neg hdemo, if_pos havail] at hds
      exact Except.noConfusion hds
    · push_neg at havail
      have hinit : st.isInitialized = true := by
        have h1 : isAvailable st = true := by
          cases h : isAvailable st with
          | true => rfl
          | false => exact absurd h havail.1
        exact (Bool.and_eq_true _ _ |>.mp (by rwa [isAvailable] at h1)).1
      have hmodel : st.modelLoaded = true := by
        cases h : st.modelLoaded with
        | true => rfl
        | false => exact absurd h havail.2
      cases outcome with
      | error e =>
        exfalso
        unfold detectMold at hds
        rw [if_neg hdemo, if_neg (by simp [isAvailable, hinit, hmodel])] at hds
        exact Except.noConfusion hds
      | ok o =>
        cases o with
        | none =>
          have : (Except.ok ([] : List Detection) : Except String (List Detection))
              = Except.ok ds := by
            unfold detectMold at hds
            rwa [if_neg hdemo, if_neg (by simp [isAvailable, hinit, hmodel])] at hds
          intro d hd
          rw [← Except.ok.inj this] at hd
          cases hd
        | some preds =>
          rw [detectMold_real st img now msqrt rand preds hdemo hinit hmodel] at hds
          intro d hd
          rw [← Except.ok.inj hds] at hd
          obtain ⟨j, p, hp, hdj⟩ := exists_source_of_mem_mapWithIndex hd
          subst hdj
          have hbounds := hpred preds rfl p hp
          exact mkDetection_loc_bounds img now j p hW hH hbounds.1 hbounds.2

/-- Witness for C2 (amended) on a concrete demo-mode service with all
draws fixed to 0 and the square-root model fixed to 1/10. -/
theorem c2_amended_witness :
    ((0:ℚ) < 100 ∧ (∀ i : ℕ, 0 ≤ (fun _ : ℕ => (0:ℚ)) i ∧ (fun _ : ℕ => (0:ℚ)) i < 1) ∧
     (∀ q : ℚ, 1/100 ≤ q → q ≤ 6/100 →
        0 ≤ (fun _ : ℚ => (1/10 : ℚ)) q ∧ (fun _ : ℚ => (1/10 : ℚ)) q ≤ 1/4)) ∧
    ∀ d ∈ generateMockDetections (fun _ => 1/10) (fun _ => 0) 0 ⟨100, 100⟩,
      ((0:ℚ) ≤ d.location.x ∧ d.location.x ≤ 1) ∧
      (0 ≤ d.location.y ∧ d.location.y ≤ 1) ∧
      (0 ≤ d.location.width ∧ d.location.width ≤ 1) ∧
      (0 ≤ d.location.height ∧ d.location.height ≤ 1) :=
  ⟨⟨by norm_num, fun _ => ⟨le_refl 0, by norm_num⟩, fun _ _ _ => ⟨by norm_num, by norm_num⟩⟩,
   c2_amended ⟨true, some "demo", false⟩ ⟨100, 100⟩ 0 (fun _ => 1/10) (fun _ => 0)
     (.error "offline") (generateMockDetections (fun _ => 1/10) (fun _ => 0) 0 ⟨100, 100⟩)
     (by norm_num) (by norm_num) (fun _ => ⟨le_refl 0, by norm_num⟩)
     (fun _ _ _ => ⟨by norm_num, by norm_num⟩)
     (fun preds h => Except.noConfusion h) rfl⟩

/-- A character list starts every list it is appended to. -/
theorem leadsOf_append_self (p s : List Char) : leadsOf p (p ++ s) = true := by
  induction p with
  | nil => rfl
  | cons a as ih => simp [leadsOf, ih]

/-- A marker cannot start a list whose first character differs. -/
theorem leadsOf_eq_false_of_head_ne (a b : Char) (as bs : List Char) (h : (a == b) = false) :
    leadsOf (a :: as) (b :: bs) = false := by
  simp [leadsOf, h]

/-- No output of the real-path description generator starts with the demo
marker `"Demo:"`. -/
theorem generateDescription_not_demo (cls : String) (c : ℚ) :
    leadsOf "Demo:".data (generateDescription cls c).data = false := by
  simp only [generateDescription]
  split_ifs with h1 h2 h3
  · simp only [String.data_append, List.append_assoc, List.cons_append]
    exact leadsOf_eq_false_of_head_ne _ _ _ _ (by decide)
  · simp only [String.data_append, List.append_assoc, List.cons_append]
    exact leadsOf_eq_false_of_head_ne _ _ _ _ (by decide)
  · simp only [String.data_append, List.append_assoc, List.cons_append]
    exact leadsOf_eq_false_of_head_ne _ _ _ _ (by decide)
  · simp only [String.data_append, List.append_assoc, List.cons_append]
    exact leadsOf_eq_false_of_head_ne _ _ _ _ (by decide)

/-- C7: every synthetic finding carries all three demo markers — an id
starting with `"demo_mold_"`, a description starting with `"Demo:"`, and
`rawPrediction.demo = true` — and no real-path detection carries any of
them, so synthetic findings are distinguishable from real ones by their
output alone. -/
theorem c7_synthetic_markers (msqrt : ℚ → ℚ) (rand : ℕ → ℚ) (now now' : ℕ)
    (img img' : Image) (st : ServiceState) (preds : List Prediction) (ds : List Detection)
    (hdemo : st.apiKey ≠ some "demo") (hinit : st.isInitialized = true)
    (hmodel : st.modelLoaded = true)
    (hds : detectMold st img' now' msqrt rand (.ok (some preds)) = .ok ds) :
    (∀ d ∈ generateMockDetections msqrt rand now img,
      leadsOf "demo_mold_".data d.id.data = true ∧
      leadsOf "Demo:".data d.description.data = true ∧
      d.rawPrediction.demo = true) ∧
    (∀ d ∈ ds,
      leadsOf "demo_mold_".data d.id.data = false ∧
      leadsOf "Demo:".data d.description.data = false ∧
      d.rawPrediction.demo = false) := by
  constructor
  · intro d hd
    simp only [generateMockDetections, List.mem_map, List.mem_range] at hd
    obtain ⟨i, _, hdi⟩ := hd
    subst hdi
    simp only [mockDetection]
    refine ⟨?_, ?_, rfl⟩
    · simp only [String.data_append, List.append_assoc]
      exact leadsOf_append_self _ _
    · rw [show ("Demo: Mold growth detected with " : String)
          = "Demo:" ++ " Mold growth detected with " from rfl]
      simp only [String.data_append, List.append_assoc]
      exact leadsOf_append_self _ _
  · intro d hd
    rw [detectMold_real st img' now' msqrt rand preds hdemo hinit hmodel] at hds
    rw [← Except.ok.inj hds] at hd
    obtain ⟨j, p, hp, hdj⟩ := exists_source_of_mem_mapWithIndex hd
    subst hdj
    simp only [mkDetection]
    refine ⟨?_, generateDescription_not_demo _ _, rfl⟩
    simp only [String.data_append, List.append_assoc, List.cons_append]
    exact leadsOf_eq_false_of_head_ne _ _ _ _ (by decide)

/-- Witness for C7 on a concrete initialized real service and a one-element
prediction list, next to a concrete synthetic batch. -/
theorem c7_synthetic_markers_witness :
    ((some "key" : Option String) ≠ some "demo") ∧
    ((∀ d ∈ generateMockDetections (fun _ => 1/10) (fun _ => 0) 0 ⟨100, 100⟩,
      leadsOf "demo_mold_".data d.id.data = true ∧
      leadsOf "Demo:".data d.description.data = true ∧
      d.rawPrediction.demo = true) ∧
    (∀ d ∈ [mkDetection ⟨100, 100⟩ 7 0
        ⟨some 0.9, some 50, some 50, some 20, some 20, some "mold"⟩],
      leadsOf "demo_mold_".data d.id.data = false ∧
      leadsOf "Demo:".data d.description.data = false ∧
      d.rawPrediction.demo = false)) :=
  ⟨by decide,
   c7_synthetic_markers (fun _ => 1/10) (fun _ => 0) 0 7 ⟨100, 100⟩ ⟨100, 100⟩
     ⟨true, some "key", true⟩
     [⟨some 0.9, some 50, some 50, some 20, some 20, some "mold"⟩]
     [mkDetection ⟨100, 100⟩ 7 0 ⟨some 0.9, some 50, some 50, some 20, some 20, some "mold"⟩]
     (by decide) rfl rfl rfl⟩

end HomeInspector
